import Mathlib

/-!
Shallow embedding of the ProspectInsightAI core (`src/app.py`):
`generate_content_with_retry_rest` (a tenacity-decorated Gemini REST call),
`buscar_links_google` (a SerpApi search), and `resumir_com_gemini`
(the summary orchestrator).  The Streamlit display calls (`st.info`,
`st.warning`, `st.error`, `st.success`) are pure side channels that never
alter control flow or return values, so they are not represented.
Machine-level HTTP transport is modelled as a function from the outgoing
request to either a response or a raised exception.
-/

/-- JSON values, as produced by `response.json()`.  Numbers are modelled as
integers (no claim depends on fractional values). -/
inductive JVal : Type where
  | null : JVal
  | bool (b : Bool) : JVal
  | num (n : Int) : JVal
  | str (s : String) : JVal
  | arr (xs : List JVal) : JVal
  | obj (fields : List (String × JVal)) : JVal

/-- First-match lookup in a JSON object's field list (dict keys are unique). -/
def jlookup (fields : List (String × JVal)) (k : String) : Option JVal :=
  match fields with
  | [] => none
  | (k2, v) :: rest => if k2 = k then some v else jlookup rest k

/-- Python truthiness of a JSON value (`if response_json["candidates"]:`). -/
def JVal.truthy : JVal → Bool
  | .null => false
  | .bool b => b
  | .num n => n != 0
  | .str s => !s.isEmpty
  | .arr xs => !xs.isEmpty
  | .obj fields => !fields.isEmpty

/-- The Python type name of a JSON value, used in `TypeError` messages. -/
def JVal.py_type_name : JVal → String
  | .null => "NoneType"
  | .bool _ => "bool"
  | .num _ => "int"
  | .str _ => "str"
  | .arr _ => "list"
  | .obj _ => "dict"

/-- The Python exceptions that can arise in this program:
`requests.exceptions.HTTPError` (carrying the attached response's status
code and the exception message), `KeyError` / `IndexError` / `TypeError`
from subscripting, `requests.exceptions.JSONDecodeError` from
`response.json()`, `requests.exceptions.ConnectionError` from the
transport, and `tenacity.RetryError` wrapping a retry-exhausted attempt. -/
inductive Exc : Type where
  | httpError (status : Nat) (msg : String) : Exc
  | keyError (key : String) : Exc
  | indexError (msg : String) : Exc
  | typeError (msg : String) : Exc
  | jsonDecodeError (msg : String) : Exc
  | connectionError (msg : String) : Exc
  | retryError (last : Exc) : Exc

/-- `type(e).__name__` for each modelled exception. -/
def Exc.name : Exc → String
  | .httpError _ _ => "HTTPError"
  | .keyError _ => "KeyError"
  | .indexError _ => "IndexError"
  | .typeError _ => "TypeError"
  | .jsonDecodeError _ => "JSONDecodeError"
  | .connectionError _ => "ConnectionError"
  | .retryError _ => "RetryError"

/-- `str(e)` for each modelled exception.  `str(KeyError(k))` is the repr of
the key; for `tenacity.RetryError` the repr of the wrapped concurrent
Future is modelled with its memory address elided. -/
def Exc.pystr : Exc → String
  | .httpError _ msg => msg
  | .keyError key => "\x27" ++ key ++ "\x27"
  | .indexError msg => msg
  | .typeError msg => msg
  | .jsonDecodeError msg => msg
  | .connectionError msg => msg
  | .retryError last => "RetryError[<Future state=finished raised " ++ last.name ++ ">]"

/-- `retry_if_exception_type(requests.exceptions.HTTPError)`: retry exactly
when the raised exception is an `HTTPError`. -/
def Exc.isHTTPError : Exc → Bool
  | .httpError _ _ => true
  | _ => false

/-- Whether the exception is a Python `LookupError` (`KeyError` or
`IndexError`). -/
def Exc.isLookupError : Exc → Bool
  | .keyError _ => true
  | .indexError _ => true
  | _ => false

/-- Python `key in container` for a string key: key membership on a dict,
element membership on a list (only string elements can equal a string),
substring test on a string, `TypeError` otherwise. -/
def py_contains (container : JVal) (key : String) : Except Exc Bool :=
  match container with
  | .obj fields => .ok (jlookup fields key).isSome
  | .arr xs => .ok (xs.any fun v => match v with | .str s => s == key | _ => false)
  | .str s => .ok ((s.splitOn key).length != 1)
  | c => .error (.typeError ("argument of type \x27" ++ c.py_type_name ++ "\x27 is not iterable"))

/-- Python `container[key]` for a string key: dict lookup raising
`KeyError` when absent, `TypeError` on lists, strings and
non-subscriptables. -/
def py_getitem (container : JVal) (key : String) : Except Exc JVal :=
  match container with
  | .obj fields =>
    match jlookup fields key with
    | some v => .ok v
    | none => .error (.keyError key)
  | .arr _ => .error (.typeError "list indices must be integers or slices, not str")
  | .str _ => .error (.typeError "string indices must be integers")
  | c => .error (.typeError ("\x27" ++ c.py_type_name ++ "\x27 object is not subscriptable"))

/-- Python `container[i]` for a natural index: list/string indexing raising
`IndexError` out of range, `KeyError` on dicts (an integer is never a key
of a parsed JSON object), `TypeError` on non-subscriptables. -/
def py_index (container : JVal) (i : Nat) : Except Exc JVal :=
  match container with
  | .arr xs =>
    match xs.get? i with
    | some v => .ok v
    | none => .error (.indexError "list index out of range")
  | .str s =>
    match s.data.get? i with
    | some c => .ok (.str (String.singleton c))
    | none => .error (.indexError "string index out of range")
  | .obj _ => .error (.keyError (toString i))
  | c => .error (.typeError ("\x27" ++ c.py_type_name ++ "\x27 object is not subscriptable"))

/-- Python `for item in container`: elements of a list, keys of a dict,
characters of a string, `TypeError` otherwise. -/
def py_iter (container : JVal) : Except Exc (List JVal) :=
  match container with
  | .arr xs => .ok xs
  | .obj fields => .ok (fields.map fun kv => .str kv.fst)
  | .str s => .ok (s.data.map fun c => .str (String.singleton c))
  | c => .error (.typeError ("\x27" ++ c.py_type_name ++ "\x27 object is not iterable"))

/-- An HTTP response as seen by `requests`: status code, reason phrase, the
requested URL, and the outcome of `response.json()` (`none` models a body
that fails to parse, raising `JSONDecodeError`). -/
structure HttpResponse : Type where
  status_code : Nat
  reason : String
  url : String
  json : Option JVal

/-- `requests.Response.raise_for_status`: raises `HTTPError` for status
codes in [400, 500) ("Client Error") and [500, 600) ("Server Error"). -/
def raise_for_status (response : HttpResponse) : Except Exc Unit :=
  if 400 ≤ response.status_code ∧ response.status_code < 500 then
    .error (.httpError response.status_code
      (toString response.status_code ++ " Client Error: " ++ response.reason ++
        " for url: " ++ response.url))
  else if 500 ≤ response.status_code ∧ response.status_code < 600 then
    .error (.httpError response.status_code
      (toString response.status_code ++ " Server Error: " ++ response.reason ++
        " for url: " ++ response.url))
  else
    .ok ()

/-- The sentinel returned when the Gemini response has no candidates
(src/app.py line 57). -/
def sentinel_msg : String := "Não foi possível extrair o conteúdo gerado pelo Gemini."

/-- The request body built at src/app.py lines 41-45:
`{"contents": [{"parts": [{"text": prompt_text}]}]}`. -/
def gemini_payload (prompt_text : String) : JVal :=
  .obj [("contents", .arr [.obj [("parts", .arr [.obj [("text", .str prompt_text)]])]])]

/-- `response_json["candidates"][0]["content"]["parts"][0]["text"]`
(src/app.py line 54). -/
def gemini_extract (response_json : JVal) : Except Exc JVal := do
  let cands ← py_getitem response_json "candidates"
  let c0 ← py_index cands 0
  let content ← py_getitem c0 "content"
  let parts ← py_getitem content "parts"
  let p0 ← py_index parts 0
  py_getitem p0 "text"

/-- src/app.py lines 52-57: `if "candidates" in response_json and
response_json["candidates"]:` extract the text, else warn and return the
sentinel. -/
def gemini_parse (response_json : JVal) : Except Exc JVal :=
  match py_contains response_json "candidates" with
  | .error e => .error e
  | .ok cond =>
    if cond then
      match py_getitem response_json "candidates" with
      | .error e => .error e
      | .ok cands =>
        if cands.truthy then gemini_extract response_json
        else .ok (.str sentinel_msg)
    else .ok (.str sentinel_msg)

/-- src/app.py lines 49-57: the code after `raise_for_status` succeeded —
the explicit re-check of status 429, then `response.json()` and candidate
extraction. -/
def gemini_after_status (response : HttpResponse) : Except Exc JVal :=
  if response.status_code == 429 then
    .error (.httpError 429 "Too Many Requests (429) received.")
  else
    match response.json with
    | none => .error (.jsonDecodeError "Expecting value: line 1 column 1 (char 0)")
    | some response_json => gemini_parse response_json

/-- One attempt of the body of `generate_content_with_retry_rest`
(src/app.py lines 38-57).  `transport` maps the outgoing JSON payload and
the attempt number to the transport outcome of `requests.post`. -/
def gemini_attempt (prompt_text : String)
    (transport : JVal → Nat → Except Exc HttpResponse) (attempt_number : Nat) :
    Except Exc JVal :=
  match transport (gemini_payload prompt_text) attempt_number with
  | .error e => .error e
  | .ok response =>
    match raise_for_status response with
    | .error e => .error e
    | .ok _ => gemini_after_status response

/-- tenacity `wait_exponential(multiplier, min=mn, max=mx)` evaluated at a
1-based attempt number: `max(max(0, mn), min(multiplier * 2 ** n, mx))`. -/
def wait_exponential (multiplier mn mx attempt_number : Nat) : Nat :=
  Nat.max (Nat.max 0 mn) (Nat.min (multiplier * 2 ^ attempt_number) mx)

/-- The observable outcome of a tenacity-decorated call: the returned value
or raised exception, the number of attempts made, and the waits slept
between consecutive attempts. -/
structure RetryResult (α : Type) : Type where
  outcome : Except Exc α
  attempts : Nat
  waits : List Nat

/-- The tenacity retry loop at attempt `attempt_number` with `remaining`
further attempts allowed: a successful attempt returns immediately; an
exception not matched by `retry_pred` is re-raised immediately; a matched
exception is retried after sleeping `wait_for attempt_number`, and when no
attempts remain the loop raises `RetryError` wrapping the last exception
(tenacity's default `reraise=False`). -/
def tenacity_go {α : Type} (body : Nat → Except Exc α) (wait_for : Nat → Nat)
    (retry_pred : Exc → Bool) : Nat → Nat → RetryResult α
  | attempt_number, remaining =>
    match body attempt_number with
    | .ok v => ⟨.ok v, attempt_number, []⟩
    | .error e =>
      if retry_pred e then
        match remaining with
        | 0 => ⟨.error (.retryError e), attempt_number, []⟩
        | r + 1 =>
          let next := tenacity_go body wait_for retry_pred (attempt_number + 1) r
          ⟨next.outcome, next.attempts, wait_for attempt_number :: next.waits⟩
      else ⟨.error e, attempt_number, []⟩

/-- A `@retry(wait=..., stop=stop_after_attempt(max_attempts), retry=...)`
decorated call: attempts are numbered from 1 and at most `max_attempts`
are made. -/
def tenacity_retry {α : Type} (body : Nat → Except Exc α) (wait_for : Nat → Nat)
    (retry_pred : Exc → Bool) (max_attempts : Nat) : RetryResult α :=
  tenacity_go body wait_for retry_pred 1 (max_attempts - 1)

/-- `generate_content_with_retry_rest` (src/app.py lines 29-57): the
attempt body wrapped in
`@retry(wait=wait_exponential(multiplier=1, min=4, max=10),
stop=stop_after_attempt(5),
retry=retry_if_exception_type(requests.exceptions.HTTPError))`. -/
def generate_content_with_retry_rest (prompt_text : String)
    (transport : JVal → Nat → Except Exc HttpResponse) : RetryResult JVal :=
  tenacity_retry (gemini_attempt prompt_text transport)
    (wait_exponential 1 4 10) Exc.isHTTPError 5

/-- The query parameters of the SerpApi request (src/app.py lines 66-72). -/
structure SearchParams : Type where
  api_key : String
  q : String
  num : Nat
  hl : String
  gl : String

/-- src/app.py lines 66-72: the params dict sent to SerpApi.  Note the `hl`
field is the literal string "lang", not the `lang` argument. -/
def buscar_params (serpapi_api_key : String) (query : String)
    (num_resultados : Nat) (lang : String) : SearchParams :=
  { api_key := serpapi_api_key, q := query, num := num_resultados,
    hl := "lang", gl := "br" }

/-- The `link` field of an organic-results entry, when the entry is an
object carrying one. -/
def link_of : JVal → Option JVal
  | .obj fields => jlookup fields "link"
  | _ => none

/-- The loop at src/app.py lines 79-81: `for item in ...: if "link" in
item: resultados.append(item["link"])`.  Returns the accumulated
`resultados` together with the exception, if any, that aborted the loop
(appends made before the abort are kept, as `resultados` is mutated in
place). -/
def collect_links (items : List JVal) (acc : List JVal) : List JVal × Option Exc :=
  match items with
  | [] => (acc, none)
  | item :: rest =>
    match py_contains item "link" with
    | .error e => (acc, some e)
    | .ok cond =>
      if cond then
        match py_getitem item "link" with
        | .error e => (acc, some e)
        | .ok v => collect_links rest (acc ++ [v])
      else collect_links rest acc

/-- The try-block of `buscar_links_google` (src/app.py lines 65-82):
returns the `resultados` list as left by the block together with the
exception swallowed by `except Exception`, if one was raised.  `transport`
models `requests.get(url, params=params)`. -/
def buscar_try (params : SearchParams)
    (transport : SearchParams → Except Exc HttpResponse) : List JVal × Option Exc :=
  match transport params with
  | .error e => ([], some e)
  | .ok response =>
    match raise_for_status response with
    | .error e => ([], some e)
    | .ok _ =>
      match response.json with
      | none => ([], some (.jsonDecodeError "Expecting value: line 1 column 1 (char 0)"))
      | some res =>
        match py_contains res "organic_results" with
        | .error e => ([], some e)
        | .ok cond =>
          if cond then
            match py_getitem res "organic_results" with
            | .error e => ([], some e)
            | .ok items =>
              match py_iter items with
              | .error e => ([], some e)
              | .ok item_list => collect_links item_list []
          else ([], none)

/-- `buscar_links_google` (src/app.py lines 59-86): every exception from
the try-block is absorbed by `except Exception` (which only reports it via
the display side channel) and the `resultados` list is returned. -/
def buscar_links_google (serpapi_api_key : String) (query : String)
    (num_resultados : Nat) (lang : String)
    (transport : SearchParams → Except Exc HttpResponse) : List JVal :=
  (buscar_try (buscar_params serpapi_api_key query num_resultados lang) transport).1

/-- The message returned by `resumir_com_gemini` for an empty link list
(src/app.py line 94). -/
def no_links_msg : String :=
  "Não foi possível gerar um resumo, pois nenhum link relevante foi fornecido ou encontrado."

/-- The quota-exceeded message (src/app.py line 130). -/
def quota_msg : String :=
  "Não foi possível gerar o resumo devido ao limite de requisições da API. Tente novamente mais tarde ou verifique sua cota."

/-- The generic HTTP-error message (src/app.py line 133):
`f"Ocorreu um erro HTTP ao gerar o resumo: {e}. Status: {e.response.status_code}"`. -/
def http_msg (e_str : String) (status : Nat) : String :=
  "Ocorreu um erro HTTP ao gerar o resumo: " ++ e_str ++ ". Status: " ++ toString status

/-- The generic unknown-error message (src/app.py line 136):
`f"Ocorreu um erro desconhecido durante a geração do resumo: {type(e).__name__}: {e}"`. -/
def unknown_msg (e_name e_str : String) : String :=
  "Ocorreu um erro desconhecido durante a geração do resumo: " ++ e_name ++ ": " ++ e_str

/-- The fixed part of the prompt template before `{links_formatados}`
(src/app.py lines 98-117). -/
def prompt_head : String :=
  "\nComo um analista de negócios e inteligência de mercado sênior, analise o conteúdo dos links fornecidos.\nSeu resumo deve ser conciso, acionável e focar em insights estratégicos sobre a empresa ou tópico central para prospecção comercial.\n\nPontos-chave a serem abordados no resumo:\n-   Desafios Atuais: Obstáculos, problemas de mercado ou dores que a empresa enfrenta.\n-   Oportunidades de Mercado: Onde a empresa pode crescer ou inovar?\n-   Iniciativas Estratégicas: Projetos, parcerias, aquisições ou lançamentos recentes.\n-   Pontos de Dor Relevantes: Problemas específicos que nossos produtos/serviços podem resolver.\n-   Proposições de Valor: Como nossos produtos/serviços se alinham aos objetivos da empresa e que ganhos oferecemos.\n\nDiretrizes:\n-   Priorize as informações mais recentes e as mais impactantes para vendas.\n-   Mencione explicitamente se houver informações conflitantes ou falta de dados.\n-   Apresente o resumo de forma estruturada, usando títulos e marcadores.\n-   Mantenha um tom profissional e analítico.\n\n---\nLinks para análise (priorize a leitura e compreensão do conteúdo):\n"

/-- The fixed part of the prompt template after `{links_formatados}`
(src/app.py lines 117-121). -/
def prompt_tail : String := "\n\n---\nResumo Analítico para Prospecção:\n"

/-- The prompt built at src/app.py lines 96-121:
`links_formatados = "\n- ".join(links)` interpolated into the template. -/
def resumir_prompt (links : List String) : String :=
  prompt_head ++ String.intercalate "\n- " links ++ prompt_tail

/-- `resumir_com_gemini` (src/app.py lines 88-136).  The second component
counts the calls made to `generate_content_with_retry_rest`.  The
exception handlers mirror lines 127-136: `except
requests.exceptions.HTTPError` (with the 429 quota branch) and `except
Exception` (the generic branch). -/
def resumir_com_gemini (links : List String)
    (transport : JVal → Nat → Except Exc HttpResponse) : JVal × Nat :=
  if links.isEmpty then (.str no_links_msg, 0)
  else
    let result := generate_content_with_retry_rest (resumir_prompt links) transport
    match result.outcome with
    | .ok resumo_final => (resumo_final, 1)
    | .error (.httpError status e_msg) =>
      if status == 429 then (.str quota_msg, 1)
      else (.str (http_msg e_msg status), 1)
    | .error e => (.str (unknown_msg e.name e.pystr), 1)

/-! Concrete responses and transports used to evaluate the embedded code
at specific inputs. -/

/-- A completion endpoint that answers HTTP 500 on every attempt. -/
def resp500 : HttpResponse := ⟨500, "Internal Server Error", "u", some JVal.null⟩

/-- Transport delivering `resp500` on every attempt. -/
def transport500 : JVal → Nat → Except Exc HttpResponse := fun _ _ => Except.ok resp500

/-- A completion endpoint that answers HTTP 429 on every attempt. -/
def resp429 : HttpResponse := ⟨429, "Too Many Requests", "u", some JVal.null⟩

/-- Transport delivering `resp429` on every attempt. -/
def transport429 : JVal → Nat → Except Exc HttpResponse := fun _ _ => Except.ok resp429

/-- A successful completion response whose first candidate's text is "R". -/
def resp_ok : HttpResponse :=
  ⟨200, "OK", "u", some (JVal.obj [("candidates", JVal.arr [JVal.obj [("content",
    JVal.obj [("parts", JVal.arr [JVal.obj [("text", JVal.str "R")]])])]])])⟩

/-- Transport delivering `resp_ok`. -/
def transport_ok : JVal → Nat → Except Exc HttpResponse := fun _ _ => Except.ok resp_ok

/-- A successful completion response whose parsed body has no
"candidates" field. -/
def resp_nocand : HttpResponse := ⟨200, "OK", "u", some (JVal.obj [])⟩

/-- A successful completion response whose first candidate's "content" is
the integer 5 instead of an object. -/
def resp_badcand : HttpResponse :=
  ⟨200, "OK", "u", some (JVal.obj [("candidates", JVal.arr [JVal.obj [("content", JVal.num 5)]])])⟩

/-- Transport delivering `resp_badcand`. -/
def transport_badcand : JVal → Nat → Except Exc HttpResponse :=
  fun _ _ => Except.ok resp_badcand

/-- A search response whose organic results hold one well-formed entry
followed by a bare integer entry. -/
def resp_partial : HttpResponse :=
  ⟨200, "OK", "u", some (JVal.obj [("organic_results",
    JVal.arr [JVal.obj [("link", JVal.str "https://a")], JVal.num 5])])⟩

/-- Search transport delivering `resp_partial`. -/
def transport_partial : SearchParams → Except Exc HttpResponse :=
  fun _ => Except.ok resp_partial

/-- A search transport whose connection fails. -/
def transport_down : SearchParams → Except Exc HttpResponse :=
  fun _ => Except.error (Exc.connectionError "Connection refused")

/-- The `raise_for_status` message of `resp500`. -/
def msg500 : String := "500 Server Error: Internal Server Error for url: u"

/-- The `raise_for_status` message of `resp429`. -/
def msg429 : String := "429 Client Error: Too Many Requests for url: u"

/-! Claim theorems. -/

/-- C1: The claim states that when every attempt of
`generate_content_with_retry_rest` fails with an HTTP-level error, the
last HTTP error itself propagates unmodified, not a wrapper value.  The
code instead raises tenacity's `RetryError` wrapping the last attempt
(tenacity's `reraise` defaults to `False`): with HTTP 500 on every
attempt, after 5 attempts the outcome is
`RetryError(HTTPError(500, ...))`, not the `HTTPError` itself. -/
theorem c1_exhausted_http_error_is_wrapped :
    generate_content_with_retry_rest "p" transport500 =
      ⟨Except.error (Exc.retryError (Exc.httpError 500 msg500)), 5, [4, 4, 8, 10]⟩ ∧
    (generate_content_with_retry_rest "p" transport500).outcome ≠
      Except.error (Exc.httpError 500 msg500) := by
  have h : generate_content_with_retry_rest "p" transport500 =
      ⟨Except.error (Exc.retryError (Exc.httpError 500 msg500)), 5, [4, 4, 8, 10]⟩ := by rfl
  refine ⟨h, ?_⟩
  rw [h]
  intro hc
  exact Exc.noConfusion (Except.error.inj hc)

/-- C2: The claim states that an exhausted HTTP failure with status 429
makes `resumir_com_gemini` return the fixed quota-exceeded message.  The
code's `except requests.exceptions.HTTPError` branches are unreachable
after retry exhaustion, because tenacity raises `RetryError` (not an
`HTTPError`); the generic unknown-error branch fires instead, so with
HTTP 429 on every attempt the user sees the generic message, not the
quota message. -/
theorem c2_exhausted_429_yields_generic_message :
    resumir_com_gemini ["https://a"] transport429 =
      (JVal.str (unknown_msg "RetryError"
        "RetryError[<Future state=finished raised HTTPError>]"), 1) ∧
    (resumir_com_gemini ["https://a"] transport429).1 ≠ JVal.str quota_msg := by
  have h : resumir_com_gemini ["https://a"] transport429 =
      (JVal.str (unknown_msg "RetryError"
        "RetryError[<Future state=finished raised HTTPError>]"), 1) := by rfl
  refine ⟨h, ?_⟩
  rw [h]
  intro hc
  exact absurd (JVal.str.inj hc) (by decide)

/-- C4: The claim states that the outgoing search request's `hl`
parameter equals the caller-supplied `lang` argument.  The code passes
the literal string "lang" instead (src/app.py line 70): for every
argument, `hl` is "lang", and in particular calling with the default
locale "pt" does not forward it. -/
theorem c4_hl_is_literal_lang :
    (∀ serpapi_api_key query num_resultados lang,
      (buscar_params serpapi_api_key query num_resultados lang).hl = "lang") ∧
    (buscar_params "k" "Totvs" 5 "pt").hl ≠ "pt" := by
  refine ⟨fun _ _ _ _ => rfl, ?_⟩
  intro hc
  exact absurd hc (by decide)

/-- C7 counterexample: the claim states that whenever response extraction
fails, `buscar_links_google` returns an empty sequence.  With a response
whose organic results are one well-formed entry followed by a bare
integer, the loop appends the first link, then `"link" in 5` raises
`TypeError`; the except-branch keeps the already-appended link, so a
non-empty list is returned although extraction failed. -/
theorem c7_counterexample_partial_links :
    buscar_try (buscar_params "k" "q" 5 "pt") transport_partial =
      ([JVal.str "https://a"],
        some (Exc.typeError "argument of type \x27int\x27 is not iterable")) ∧
    buscar_links_google "k" "q" 5 "pt" transport_partial ≠ [] := by
  refine ⟨by rfl, ?_⟩
  have h : buscar_links_google "k" "q" 5 "pt" transport_partial = [JVal.str "https://a"] := by rfl
  rw [h]
  exact List.cons_ne_nil _ _

/-- C10 counterexample: the claim states that whenever the first candidate
lacks the expected content/parts/text structure, the raised exception is
a lookup error.  When the first candidate's "content" field holds the
integer 5, the extraction `...["content"]["parts"]` raises `TypeError`
(not a `LookupError`). -/
theorem c10_counterexample_type_error :
    gemini_attempt "p" transport_badcand 1 =
      Except.error (Exc.typeError "\x27int\x27 object is not subscriptable") ∧
    Exc.isLookupError (Exc.typeError "\x27int\x27 object is not subscriptable") = false := by
  exact ⟨by rfl, by rfl⟩

/-- C8: For the empty list of links, `resumir_com_gemini` returns the
fixed no-relevant-links message and makes zero calls to
`generate_content_with_retry_rest`, whatever the transport. -/
theorem c8_empty_links_short_circuit
    (transport : JVal → Nat → Except Exc HttpResponse) :
    resumir_com_gemini [] transport = (JVal.str no_links_msg, 0) := rfl

/-- Unfolding: a successful attempt returns immediately. -/
theorem tenacity_go_ok {α : Type} (body : Nat → Except Exc α) (w : Nat → Nat)
    (p : Exc → Bool) (n r : Nat) (v : α) (hb : body n = Except.ok v) :
    tenacity_go body w p n r = ⟨Except.ok v, n, []⟩ := by
  cases r <;> · rw [tenacity_go, hb]

/-- Unfolding: an exception not matched by the retry predicate is
re-raised immediately. -/
theorem tenacity_go_noretry {α : Type} (body : Nat → Except Exc α) (w : Nat → Nat)
    (p : Exc → Bool) (n r : Nat) (e : Exc) (hb : body n = Except.error e)
    (hp : p e = false) :
    tenacity_go body w p n r = ⟨Except.error e, n, []⟩ := by
  cases r <;> · rw [tenacity_go, hb]; simp [hp]

/-- Unfolding: a matched exception with no remaining budget raises
`RetryError`. -/
theorem tenacity_go_exhaust {α : Type} (body : Nat → Except Exc α) (w : Nat → Nat)
    (p : Exc → Bool) (n : Nat) (e : Exc) (hb : body n = Except.error e)
    (hp : p e = true) :
    tenacity_go body w p n 0 = ⟨Except.error (Exc.retryError e), n, []⟩ := by
  rw [tenacity_go, hb]; simp [hp]

/-- Unfolding: a matched exception with remaining budget recurses after a
wait. -/
theorem tenacity_go_retry {α : Type} (body : Nat → Except Exc α) (w : Nat → Nat)
    (p : Exc → Bool) (n r : Nat) (e : Exc) (hb : body n = Except.error e)
    (hp : p e = true) :
    tenacity_go body w p n (r + 1) =
      ⟨(tenacity_go body w p (n + 1) r).outcome,
        (tenacity_go body w p (n + 1) r).attempts,
        w n :: (tenacity_go body w p (n + 1) r).waits⟩ := by
  rw [tenacity_go, hb]; simp [hp]

/-- Attempt numbers made by the retry loop stay between the starting
attempt number and the starting number plus the remaining budget. -/
theorem tenacity_go_attempts {α : Type} (body : Nat → Except Exc α) (w : Nat → Nat)
    (p : Exc → Bool) (r n : Nat) :
    n ≤ (tenacity_go body w p n r).attempts ∧
      (tenacity_go body w p n r).attempts ≤ n + r := by
  induction r generalizing n with
  | zero =>
    cases hb : body n with
    | ok v => rw [tenacity_go_ok body w p n 0 v hb]; simp
    | error e =>
      cases hp : p e with
      | false => rw [tenacity_go_noretry body w p n 0 e hb hp]; simp
      | true => rw [tenacity_go_exhaust body w p n e hb hp]; simp
  | succ r ih =>
    cases hb : body n with
    | ok v => rw [tenacity_go_ok body w p n (r + 1) v hb]; simp
    | error e =>
      cases hp : p e with
      | false => rw [tenacity_go_noretry body w p n (r + 1) e hb hp]; simp
      | true =>
        rw [tenacity_go_retry body w p n r e hb hp]
        have := ih (n + 1)
        simp only []
        omega

/-- Every wait slept by the retry loop satisfies any property holding of
every value of the wait function. -/
theorem tenacity_go_waits {α : Type} (body : Nat → Except Exc α) (w : Nat → Nat)
    (p : Exc → Bool) (P : Nat → Prop) (hP : ∀ k, P (w k)) (r n : Nat) :
    ∀ x ∈ (tenacity_go body w p n r).waits, P x := by
  induction r generalizing n with
  | zero =>
    cases hb : body n with
    | ok v => rw [tenacity_go_ok body w p n 0 v hb]; simp
    | error e =>
      cases hp : p e with
      | false => rw [tenacity_go_noretry body w p n 0 e hb hp]; simp
      | true => rw [tenacity_go_exhaust body w p n e hb hp]; simp
  | succ r ih =>
    cases hb : body n with
    | ok v => rw [tenacity_go_ok body w p n (r + 1) v hb]; simp
    | error e =>
      cases hp : p e with
      | false => rw [tenacity_go_noretry body w p n (r + 1) e hb hp]; simp
      | true =>
        rw [tenacity_go_retry body w p n r e hb hp]
        intro x hx
        rcases List.mem_cons.mp hx with h | h
        · exact h ▸ hP n
        · exact ih (n + 1) x h

/-- Every attempt strictly before the final one raised a retry-matched
exception. -/
theorem tenacity_go_prior {α : Type} (body : Nat → Except Exc α) (w : Nat → Nat)
    (p : Exc → Bool) (r n : Nat) :
    ∀ k, n ≤ k → k < (tenacity_go body w p n r).attempts →
      ∃ e, body k = Except.error e ∧ p e = true := by
  induction r generalizing n with
  | zero =>
    intro k hk1 hk2
    exfalso
    cases hb : body n with
    | ok v => rw [tenacity_go_ok body w p n 0 v hb] at hk2; simp at hk2; omega
    | error e =>
      cases hp : p e with
      | false => rw [tenacity_go_noretry body w p n 0 e hb hp] at hk2; simp at hk2; omega
      | true => rw [tenacity_go_exhaust body w p n e hb hp] at hk2; simp at hk2; omega
  | succ r ih =>
    intro k hk1 hk2
    cases hb : body n with
    | ok v =>
      rw [tenacity_go_ok body w p n (r + 1) v hb] at hk2
      simp at hk2; omega
    | error e =>
      cases hp : p e with
      | false =>
        rw [tenacity_go_noretry body w p n (r + 1) e hb hp] at hk2
        simp at hk2; omega
      | true =>
        rw [tenacity_go_retry body w p n r e hb hp] at hk2
        simp only [] at hk2
        rcases Nat.eq_or_lt_of_le hk1 with heq | hlt
        · subst heq
          exact ⟨e, hb, hp⟩
        · exact ih (n + 1) k hlt hk2

/-- The outcome is determined by the final attempt's raised exception: one
not matched by the retry predicate is re-raised as-is, a matched one (the
budget being exhausted) is wrapped in `RetryError`. -/
theorem tenacity_go_last_error {α : Type} (body : Nat → Except Exc α) (w : Nat → Nat)
    (p : Exc → Bool) (r n : Nat) (e : Exc)
    (hb : body (tenacity_go body w p n r).attempts = Except.error e) :
    (tenacity_go body w p n r).outcome =
      (if p e = true then Except.error (Exc.retryError e) else Except.error e) := by
  induction r generalizing n with
  | zero =>
    cases hb2 : body n with
    | ok v =>
      rw [tenacity_go_ok body w p n 0 v hb2] at hb ⊢
      simp only [] at hb
      rw [hb2] at hb
      exact absurd hb (by simp)
    | error e2 =>
      cases hp : p e2 with
      | false =>
        rw [tenacity_go_noretry body w p n 0 e2 hb2 hp] at hb ⊢
        simp only [] at hb ⊢
        rw [hb2] at hb
        cases Except.error.inj hb
        rw [hp]
        simp
      | true =>
        rw [tenacity_go_exhaust body w p n e2 hb2 hp] at hb ⊢
        simp only [] at hb ⊢
        rw [hb2] at hb
        cases Except.error.inj hb
        rw [hp]
        simp
  | succ r ih =>
    cases hb2 : body n with
    | ok v =>
      rw [tenacity_go_ok body w p n (r + 1) v hb2] at hb ⊢
      simp only [] at hb
      rw [hb2] at hb
      exact absurd hb (by simp)
    | error e2 =>
      cases hp : p e2 with
      | false =>
        rw [tenacity_go_noretry body w p n (r + 1) e2 hb2 hp] at hb ⊢
        simp only [] at hb ⊢
        rw [hb2] at hb
        cases Except.error.inj hb
        rw [hp]
        simp
      | true =>
        rw [tenacity_go_retry body w p n r e2 hb2 hp] at hb ⊢
        simp only [] at hb ⊢
        exact ih (n + 1) hb

/-- The wait `wait_exponential(multiplier=1, min=4, max=10)` is always
between 4 and 10. -/
theorem wait_exponential_bounds (k : Nat) :
    4 ≤ wait_exponential 1 4 10 k ∧ wait_exponential 1 4 10 k ≤ 10 := by
  unfold wait_exponential
  rw [show Nat.max 0 4 = 4 from rfl]
  constructor
  · exact Nat.le_max_left 4 _
  · exact Nat.max_le.mpr ⟨by norm_num, Nat.min_le_right _ _⟩

/-- C3: `generate_content_with_retry_rest` makes at most 5 attempts per
invocation; every attempt before the final one raised an HTTP-level error
(so a non-HTTP exception is never retried — it becomes the outcome
immediately, as the final attempt), and every wait slept between two
attempts is between 4 and 10 time-units. -/
theorem c3_retry_policy (prompt_text : String)
    (transport : JVal → Nat → Except Exc HttpResponse) :
    (generate_content_with_retry_rest prompt_text transport).attempts ≤ 5 ∧
    (∀ x ∈ (generate_content_with_retry_rest prompt_text transport).waits,
      4 ≤ x ∧ x ≤ 10) ∧
    (∀ k, 1 ≤ k →
      k < (generate_content_with_retry_rest prompt_text transport).attempts →
      ∃ e, gemini_attempt prompt_text transport k = Except.error e ∧
        Exc.isHTTPError e = true) ∧
    (∀ e, gemini_attempt prompt_text transport
        (generate_content_with_retry_rest prompt_text transport).attempts =
          Except.error e →
      Exc.isHTTPError e = false →
      (generate_content_with_retry_rest prompt_text transport).outcome =
        Except.error e) := by
  simp only [generate_content_with_retry_rest, tenacity_retry]
  refine ⟨?_, ?_, ?_, ?_⟩
  · exact (tenacity_go_attempts (gemini_attempt prompt_text transport)
      (wait_exponential 1 4 10) Exc.isHTTPError 4 1).2
  · exact tenacity_go_waits (gemini_attempt prompt_text transport)
      (wait_exponential 1 4 10) Exc.isHTTPError (fun x => 4 ≤ x ∧ x ≤ 10)
      wait_exponential_bounds 4 1
  · exact tenacity_go_prior (gemini_attempt prompt_text transport)
      (wait_exponential 1 4 10) Exc.isHTTPError 4 1
  · intro e hb hp
    have := tenacity_go_last_error (gemini_attempt prompt_text transport)
      (wait_exponential 1 4 10) Exc.isHTTPError 4 1 e hb
    rw [hp] at this
    simpa using this

/-- C3 witness: at the all-500 transport, the theorem's bound and the
retry-eligibility of the first attempt are realized concretely. -/
theorem c3_retry_policy_witness :
    (generate_content_with_retry_rest "p" transport500).attempts ≤ 5 ∧
    (∃ e, gemini_attempt "p" transport500 1 = Except.error e ∧
      Exc.isHTTPError e = true) := by
  refine ⟨(c3_retry_policy "p" transport500).1, ?_⟩
  exact (c3_retry_policy "p" transport500).2.2.1 1 (by norm_num) (by decide)

/-- `raise_for_status` succeeds on any status below 400. -/
theorem raise_for_status_of_lt (response : HttpResponse)
    (h : response.status_code < 400) :
    raise_for_status response = Except.ok () := by
  unfold raise_for_status
  rw [if_neg (by omega), if_neg (by omega)]

/-- C5: For a completion response that parses to an object whose
"candidates" field is absent or an empty list, the call returns the fixed
sentinel string on the first attempt: no exception, no retry. -/
theorem c5_no_candidates_sentinel (prompt_text : String) (response : HttpResponse)
    (fields : List (String × JVal))
    (hs : response.status_code < 400)
    (hj : response.json = some (JVal.obj fields))
    (hc : jlookup fields "candidates" = none ∨
      jlookup fields "candidates" = some (JVal.arr [])) :
    generate_content_with_retry_rest prompt_text (fun _ _ => Except.ok response) =
      ⟨Except.ok (JVal.str sentinel_msg), 1, []⟩ := by
  have h429 : (response.status_code == 429) = false := by
    simp only [beq_eq_false_iff_ne, ne_eq]
    omega
  have hparse : gemini_parse (JVal.obj fields) = Except.ok (JVal.str sentinel_msg) := by
    rcases hc with hc | hc
    · simp only [gemini_parse, py_contains, hc, Option.isSome_none]
      rfl
    · simp only [gemini_parse, py_contains, hc, Option.isSome_some, if_true,
        py_getitem, JVal.truthy]
      rfl
  have hatt : gemini_attempt prompt_text (fun _ _ => Except.ok response) 1 =
      Except.ok (JVal.str sentinel_msg) := by
    simp only [gemini_attempt, raise_for_status_of_lt response hs,
      gemini_after_status, h429, Bool.false_eq_true, if_false, hj, hparse]
  simp only [generate_content_with_retry_rest, tenacity_retry]
  rw [tenacity_go_ok _ _ _ 1 4 _ hatt]

/-- C5 witness: the concrete candidate-free response realizes the
theorem. -/
theorem c5_no_candidates_sentinel_witness :
    generate_content_with_retry_rest "p" (fun _ _ => Except.ok resp_nocand) =
      ⟨Except.ok (JVal.str sentinel_msg), 1, []⟩ :=
  c5_no_candidates_sentinel "p" resp_nocand [] (by decide) rfl (Or.inl rfl)

/-- C6: An HTTP response with status 429 never lets the attempt return
normally: `raise_for_status` raises an `HTTPError` with status 429, which
is retry-eligible; moreover the explicit post-status-check 429 test,
whenever control reaches it with status 429, forces the error path with
the fixed "Too Many Requests (429) received." HTTP error. -/
theorem c6_status_429_error_path (prompt_text : String)
    (transport : JVal → Nat → Except Exc HttpResponse) (response : HttpResponse)
    (n : Nat) (h429 : response.status_code = 429)
    (ht : transport (gemini_payload prompt_text) n = Except.ok response) :
    (∃ m, gemini_attempt prompt_text transport n =
        Except.error (Exc.httpError 429 m) ∧
      Exc.isHTTPError (Exc.httpError 429 m) = true) ∧
    gemini_after_status response =
      Except.error (Exc.httpError 429 "Too Many Requests (429) received.") := by
  have hr : raise_for_status response = Except.error (Exc.httpError 429
      (toString (429 : Nat) ++ " Client Error: " ++ response.reason ++
        " for url: " ++ response.url)) := by
    unfold raise_for_status
    rw [h429, if_pos (by omega)]
  constructor
  · refine ⟨toString (429 : Nat) ++ " Client Error: " ++ response.reason ++
      " for url: " ++ response.url, ?_, rfl⟩
    simp only [gemini_attempt, ht, hr]
  · unfold gemini_after_status
    rw [h429]
    rfl

/-- C6 witness: the all-429 transport realizes the theorem at attempt 1. -/
theorem c6_status_429_error_path_witness :
    (∃ m, gemini_attempt "p" transport429 1 =
        Except.error (Exc.httpError 429 m) ∧
      Exc.isHTTPError (Exc.httpError 429 m) = true) ∧
    gemini_after_status resp429 =
      Except.error (Exc.httpError 429 "Too Many Requests (429) received.") :=
  c6_status_429_error_path "p" transport429 resp429 1 rfl rfl

/-- `raise_for_status` raises an `HTTPError` carrying the status code for
any status in [400, 600). -/
theorem raise_for_status_err (response : HttpResponse)
    (h1 : 400 ≤ response.status_code) (h2 : response.status_code < 600) :
    ∃ m, raise_for_status response =
      Except.error (Exc.httpError response.status_code m) := by
  unfold raise_for_status
  by_cases h : response.status_code < 500
  · rw [if_pos ⟨h1, h⟩]
    exact ⟨_, rfl⟩
  · rw [if_neg (by omega), if_pos ⟨by omega, h2⟩]
    exact ⟨_, rfl⟩

/-- On a list of object entries the link loop never raises and collects
exactly the `link` fields in order, skipping entries without one. -/
theorem collect_links_objs (items : List JVal) (acc : List JVal)
    (h : ∀ it ∈ items, ∃ ifs, it = JVal.obj ifs) :
    collect_links items acc = (acc ++ items.filterMap link_of, none) := by
  induction items generalizing acc with
  | nil => simp [collect_links]
  | cons item rest ih =>
    obtain ⟨ifs, rfl⟩ := h item (List.mem_cons_self item rest)
    have hrest : ∀ it ∈ rest, ∃ ifs2, it = JVal.obj ifs2 :=
      fun it hit => h it (List.mem_cons_of_mem _ hit)
    cases hl : jlookup ifs "link" with
    | none =>
      simp only [collect_links, py_contains, hl, Option.isSome_none,
        Bool.false_eq_true, if_false, List.filterMap_cons, link_of]
      exact ih acc hrest
    | some v =>
      simp only [collect_links, py_contains, hl, Option.isSome_some, if_true,
        py_getitem, List.filterMap_cons, link_of]
      rw [ih (acc ++ [v]) hrest]
      simp

/-- On a list of string entries the link loop never appends: the
membership test may succeed (substring semantics) but the subscript then
raises `TypeError`, aborting with the accumulator unchanged. -/
theorem collect_links_strs (items : List JVal) (acc : List JVal)
    (h : ∀ it ∈ items, ∃ s, it = JVal.str s) :
    (collect_links items acc).1 = acc := by
  induction items generalizing acc with
  | nil => rfl
  | cons item rest ih =>
    obtain ⟨s, rfl⟩ := h item (List.mem_cons_self item rest)
    have hrest : ∀ it ∈ rest, ∃ s2, it = JVal.str s2 :=
      fun it hit => h it (List.mem_cons_of_mem _ hit)
    simp only [collect_links, py_contains, py_getitem]
    split
    · rfl
    · exact ih acc hrest

/-- When the entries are well-formed objects up to a first aborting entry
(one whose membership test raises, or passes with a failing subscript),
the loop keeps exactly the links collected before the abort and stops
with that entry's exception. -/
theorem collect_links_abort (good : List JVal) (bad : JVal) (rest : List JVal)
    (acc : List JVal) (e : Exc)
    (hgood : ∀ it ∈ good, ∃ ifs, it = JVal.obj ifs)
    (hbad : py_contains bad "link" = Except.error e ∨
      (py_contains bad "link" = Except.ok true ∧
        py_getitem bad "link" = Except.error e)) :
    collect_links (good ++ bad :: rest) acc =
      (acc ++ good.filterMap link_of, some e) := by
  induction good generalizing acc with
  | nil =>
    simp only [List.nil_append, List.filterMap_nil, List.append_nil]
    rcases hbad with h | ⟨h1, h2⟩
    · simp [collect_links, h]
    · simp [collect_links, h1, h2]
  | cons g gs ih =>
    obtain ⟨ifs, rfl⟩ := hgood g (List.mem_cons_self g gs)
    have hgs : ∀ it ∈ gs, ∃ ifs2, it = JVal.obj ifs2 :=
      fun it hit => hgood it (List.mem_cons_of_mem _ hit)
    cases hl : jlookup ifs "link" with
    | none =>
      simp only [List.cons_append, collect_links, py_contains, hl, Option.isSome_none,
        Bool.false_eq_true, if_false, List.filterMap_cons, link_of]
      exact ih acc hgs
    | some v =>
      simp only [List.cons_append, collect_links, py_contains, hl, Option.isSome_some,
        if_true, py_getitem, List.filterMap_cons, link_of]
      rw [List.append_eq, ih (acc ++ [v]) hgs]
      simp

/-- C7 (amended): `buscar_links_google` never raises to its caller; a
transport failure, an HTTP error status, an unparsable body, a body whose
top-level value is not an object, a missing "organic_results" field, or
an "organic_results" value that is not a list each yield the empty
sequence, and in the fully successful path (all entries objects) it
returns the `link` field of each organic-results entry in response
order, skipping entries without a link field.  When extraction fails
midway through the entry loop, the links appended before the failure are
returned instead of an empty sequence. -/
theorem c7_amended_absorbs_failures (serpapi_api_key query : String)
    (num_resultados : Nat) (lang : String)
    (transport : SearchParams → Except Exc HttpResponse) :
    (∀ e, transport (buscar_params serpapi_api_key query num_resultados lang) =
        Except.error e →
      buscar_links_google serpapi_api_key query num_resultados lang transport = []) ∧
    (∀ response,
      transport (buscar_params serpapi_api_key query num_resultados lang) =
        Except.ok response →
      400 ≤ response.status_code → response.status_code < 600 →
      buscar_links_google serpapi_api_key query num_resultados lang transport = []) ∧
    (∀ response,
      transport (buscar_params serpapi_api_key query num_resultados lang) =
        Except.ok response →
      response.status_code < 400 → response.json = none →
      buscar_links_google serpapi_api_key query num_resultados lang transport = []) ∧
    (∀ response fields,
      transport (buscar_params serpapi_api_key query num_resultados lang) =
        Except.ok response →
      response.status_code < 400 → response.json = some (JVal.obj fields) →
      jlookup fields "organic_results" = none →
      buscar_links_google serpapi_api_key query num_resultados lang transport = []) ∧
    (∀ response fields items,
      transport (buscar_params serpapi_api_key query num_resultados lang) =
        Except.ok response →
      response.status_code < 400 → response.json = some (JVal.obj fields) →
      jlookup fields "organic_results" = some (JVal.arr items) →
      (∀ it ∈ items, ∃ ifs, it = JVal.obj ifs) →
      buscar_links_google serpapi_api_key query num_resultados lang transport =
        items.filterMap link_of) ∧
    (∀ response res,
      transport (buscar_params serpapi_api_key query num_resultados lang) =
        Except.ok response →
      response.status_code < 400 → response.json = some res →
      (∀ fields, res ≠ JVal.obj fields) →
      buscar_links_google serpapi_api_key query num_resultados lang transport = []) ∧
    (∀ response fields v,
      transport (buscar_params serpapi_api_key query num_resultados lang) =
        Except.ok response →
      response.status_code < 400 → response.json = some (JVal.obj fields) →
      jlookup fields "organic_results" = some v →
      (∀ items, v ≠ JVal.arr items) →
      buscar_links_google serpapi_api_key query num_resultados lang transport = []) ∧
    (∀ response fields good bad rest e,
      transport (buscar_params serpapi_api_key query num_resultados lang) =
        Except.ok response →
      response.status_code < 400 → response.json = some (JVal.obj fields) →
      jlookup fields "organic_results" = some (JVal.arr (good ++ bad :: rest)) →
      (∀ it ∈ good, ∃ ifs, it = JVal.obj ifs) →
      (py_contains bad "link" = Except.error e ∨
        (py_contains bad "link" = Except.ok true ∧
          py_getitem bad "link" = Except.error e)) →
      buscar_links_google serpapi_api_key query num_resultados lang transport =
        good.filterMap link_of) := by
  refine ⟨?_, ?_, ?_, ?_, ?_, ?_, ?_, ?_⟩
  · intro e ht
    simp [buscar_links_google, buscar_try, ht]
  · intro response ht h1 h2
    obtain ⟨m, hr⟩ := raise_for_status_err response h1 h2
    simp [buscar_links_google, buscar_try, ht, hr]
  · intro response ht hs hj
    simp [buscar_links_google, buscar_try, ht, raise_for_status_of_lt response hs, hj]
  · intro response fields ht hs hj ho
    simp [buscar_links_google, buscar_try, ht, raise_for_status_of_lt response hs,
      hj, py_contains, ho]
  · intro response fields items ht hs hj ho hobj
    simp only [buscar_links_google, buscar_try, ht,
      raise_for_status_of_lt response hs, hj, py_contains, ho,
      Option.isSome_some, if_true, py_getitem, py_iter]
    rw [collect_links_objs items [] hobj]
    simp
  · intro response res ht hs hj hno
    cases res with
    | obj fields => exact absurd rfl (hno fields)
    | null =>
      simp [buscar_links_google, buscar_try, ht, raise_for_status_of_lt response hs,
        hj, py_contains]
    | bool b =>
      simp [buscar_links_google, buscar_try, ht, raise_for_status_of_lt response hs,
        hj, py_contains]
    | num n =>
      simp [buscar_links_google, buscar_try, ht, raise_for_status_of_lt response hs,
        hj, py_contains]
    | str s =>
      simp [buscar_links_google, buscar_try, ht, raise_for_status_of_lt response hs,
        hj, py_contains, py_getitem, apply_ite]
    | arr xs =>
      simp [buscar_links_google, buscar_try, ht, raise_for_status_of_lt response hs,
        hj, py_contains, py_getitem, apply_ite]
  · intro response fields v ht hs hj ho hnl
    cases v with
    | arr items => exact absurd rfl (hnl items)
    | null =>
      simp [buscar_links_google, buscar_try, ht, raise_for_status_of_lt response hs,
        hj, py_contains, ho, py_getitem, py_iter]
    | bool b =>
      simp [buscar_links_google, buscar_try, ht, raise_for_status_of_lt response hs,
        hj, py_contains, ho, py_getitem, py_iter]
    | num n =>
      simp [buscar_links_google, buscar_try, ht, raise_for_status_of_lt response hs,
        hj, py_contains, ho, py_getitem, py_iter]
    | obj fs =>
      simp only [buscar_links_google, buscar_try, ht,
        raise_for_status_of_lt response hs, hj, py_contains, ho,
        Option.isSome_some, if_true, py_getitem, py_iter]
      refine collect_links_strs _ [] ?_
      intro it hit
      obtain ⟨kv, _, rfl⟩ := List.mem_map.mp hit
      exact ⟨kv.fst, rfl⟩
    | str s =>
      simp only [buscar_links_google, buscar_try, ht,
        raise_for_status_of_lt response hs, hj, py_contains, ho,
        Option.isSome_some, if_true, py_getitem, py_iter]
      refine collect_links_strs _ [] ?_
      intro it hit
      obtain ⟨c, _, rfl⟩ := List.mem_map.mp hit
      exact ⟨String.singleton c, rfl⟩
  · intro response fields good bad rest e ht hs hj ho hgood hbad
    simp only [buscar_links_google, buscar_try, ht,
      raise_for_status_of_lt response hs, hj, py_contains, ho,
      Option.isSome_some, if_true, py_getitem, py_iter]
    rw [collect_links_abort good bad rest [] e hgood hbad]
    simp

/-- C7 amended witness: a failed connection yields the empty list. -/
theorem c7_amended_absorbs_failures_witness :
    buscar_links_google "k" "q" 5 "pt" transport_down = [] :=
  (c7_amended_absorbs_failures "k" "q" 5 "pt" transport_down).1
    (Exc.connectionError "Connection refused") rfl

/-- Any split of the fixed prompt head witnesses a substring of the full
prompt, whatever the links. -/
theorem head_split_contains (a mid rest : String) (h : prompt_head = a ++ mid ++ rest)
    (links : List String) :
    ∃ x y, resumir_prompt links = x ++ mid ++ y :=
  ⟨a, rest ++ String.intercalate "\n- " links ++ prompt_tail, by
    rw [resumir_prompt, h]
    simp [String.append_assoc]⟩

set_option maxRecDepth 400000 in
/-- The prompt template's fixed head contains the theme text "Desafios Atuais" as a substring. -/
theorem prompt_head_split_1 :
    prompt_head = "\nComo um analista de negócios e inteligência de mercado sênior, analise o conteúdo dos links fornecidos.\nSeu resumo deve ser conciso, acionável e focar em insights estratégicos sobre a empresa ou tópico central para prospecção comercial.\n\nPontos-chave a serem abordados no resumo:\n-   " ++ "Desafios Atuais" ++ ": Obstáculos, problemas de mercado ou dores que a empresa enfrenta.\n-   Oportunidades de Mercado: Onde a empresa pode crescer ou inovar?\n-   Iniciativas Estratégicas: Projetos, parcerias, aquisições ou lançamentos recentes.\n-   Pontos de Dor Relevantes: Problemas específicos que nossos produtos/serviços podem resolver.\n-   Proposições de Valor: Como nossos produtos/serviços se alinham aos objetivos da empresa e que ganhos oferecemos.\n\nDiretrizes:\n-   Priorize as informações mais recentes e as mais impactantes para vendas.\n-   Mencione explicitamente se houver informações conflitantes ou falta de dados.\n-   Apresente o resumo de forma estruturada, usando títulos e marcadores.\n-   Mantenha um tom profissional e analítico.\n\n---\nLinks para análise (priorize a leitura e compreensão do conteúdo):\n" := by rfl

set_option maxRecDepth 400000 in
/-- The prompt template's fixed head contains the theme text "Oportunidades de Mercado" as a substring. -/
theorem prompt_head_split_2 :
    prompt_head = "\nComo um analista de negócios e inteligência de mercado sênior, analise o conteúdo dos links fornecidos.\nSeu resumo deve ser conciso, acionável e focar em insights estratégicos sobre a empresa ou tópico central para prospecção comercial.\n\nPontos-chave a serem abordados no resumo:\n-   Desafios Atuais: Obstáculos, problemas de mercado ou dores que a empresa enfrenta.\n-   " ++ "Oportunidades de Mercado" ++ ": Onde a empresa pode crescer ou inovar?\n-   Iniciativas Estratégicas: Projetos, parcerias, aquisições ou lançamentos recentes.\n-   Pontos de Dor Relevantes: Problemas específicos que nossos produtos/serviços podem resolver.\n-   Proposições de Valor: Como nossos produtos/serviços se alinham aos objetivos da empresa e que ganhos oferecemos.\n\nDiretrizes:\n-   Priorize as informações mais recentes e as mais impactantes para vendas.\n-   Mencione explicitamente se houver informações conflitantes ou falta de dados.\n-   Apresente o resumo de forma estruturada, usando títulos e marcadores.\n-   Mantenha um tom profissional e analítico.\n\n---\nLinks para análise (priorize a leitura e compreensão do conteúdo):\n" := by rfl

set_option maxRecDepth 400000 in
/-- The prompt template's fixed head contains the theme text "Iniciativas Estratégicas" as a substring. -/
theorem prompt_head_split_3 :
    prompt_head = "\nComo um analista de negócios e inteligência de mercado sênior, analise o conteúdo dos links fornecidos.\nSeu resumo deve ser conciso, acionável e focar em insights estratégicos sobre a empresa ou tópico central para prospecção comercial.\n\nPontos-chave a serem abordados no resumo:\n-   Desafios Atuais: Obstáculos, problemas de mercado ou dores que a empresa enfrenta.\n-   Oportunidades de Mercado: Onde a empresa pode crescer ou inovar?\n-   " ++ "Iniciativas Estratégicas" ++ ": Projetos, parcerias, aquisições ou lançamentos recentes.\n-   Pontos de Dor Relevantes: Problemas específicos que nossos produtos/serviços podem resolver.\n-   Proposições de Valor: Como nossos produtos/serviços se alinham aos objetivos da empresa e que ganhos oferecemos.\n\nDiretrizes:\n-   Priorize as informações mais recentes e as mais impactantes para vendas.\n-   Mencione explicitamente se houver informações conflitantes ou falta de dados.\n-   Apresente o resumo de forma estruturada, usando títulos e marcadores.\n-   Mantenha um tom profissional e analítico.\n\n---\nLinks para análise (priorize a leitura e compreensão do conteúdo):\n" := by rfl

set_option maxRecDepth 400000 in
/-- The prompt template's fixed head contains the theme text "Pontos de Dor Relevantes" as a substring. -/
theorem prompt_head_split_4 :
    prompt_head = "\nComo um analista de negócios e inteligência de mercado sênior, analise o conteúdo dos links fornecidos.\nSeu resumo deve ser conciso, acionável e focar em insights estratégicos sobre a empresa ou tópico central para prospecção comercial.\n\nPontos-chave a serem abordados no resumo:\n-   Desafios Atuais: Obstáculos, problemas de mercado ou dores que a empresa enfrenta.\n-   Oportunidades de Mercado: Onde a empresa pode crescer ou inovar?\n-   Iniciativas Estratégicas: Projetos, parcerias, aquisições ou lançamentos recentes.\n-   " ++ "Pontos de Dor Relevantes" ++ ": Problemas específicos que nossos produtos/serviços podem resolver.\n-   Proposições de Valor: Como nossos produtos/serviços se alinham aos objetivos da empresa e que ganhos oferecemos.\n\nDiretrizes:\n-   Priorize as informações mais recentes e as mais impactantes para vendas.\n-   Mencione explicitamente se houver informações conflitantes ou falta de dados.\n-   Apresente o resumo de forma estruturada, usando títulos e marcadores.\n-   Mantenha um tom profissional e analítico.\n\n---\nLinks para análise (priorize a leitura e compreensão do conteúdo):\n" := by rfl

set_option maxRecDepth 400000 in
/-- The prompt template's fixed head contains the theme text "Proposições de Valor" as a substring. -/
theorem prompt_head_split_5 :
    prompt_head = "\nComo um analista de negócios e inteligência de mercado sênior, analise o conteúdo dos links fornecidos.\nSeu resumo deve ser conciso, acionável e focar em insights estratégicos sobre a empresa ou tópico central para prospecção comercial.\n\nPontos-chave a serem abordados no resumo:\n-   Desafios Atuais: Obstáculos, problemas de mercado ou dores que a empresa enfrenta.\n-   Oportunidades de Mercado: Onde a empresa pode crescer ou inovar?\n-   Iniciativas Estratégicas: Projetos, parcerias, aquisições ou lançamentos recentes.\n-   Pontos de Dor Relevantes: Problemas específicos que nossos produtos/serviços podem resolver.\n-   " ++ "Proposições de Valor" ++ ": Como nossos produtos/serviços se alinham aos objetivos da empresa e que ganhos oferecemos.\n\nDiretrizes:\n-   Priorize as informações mais recentes e as mais impactantes para vendas.\n-   Mencione explicitamente se houver informações conflitantes ou falta de dados.\n-   Apresente o resumo de forma estruturada, usando títulos e marcadores.\n-   Mantenha um tom profissional e analítico.\n\n---\nLinks para análise (priorize a leitura e compreensão do conteúdo):\n" := by rfl

set_option maxRecDepth 400000 in
/-- The prompt template's fixed head contains the theme text of split 6 as a substring. -/
theorem prompt_head_split_6 :
    prompt_head = "\nComo um analista de negócios e inteligência de mercado sênior, analise o conteúdo dos links fornecidos.\nSeu resumo deve ser conciso, acionável e focar em insights estratégicos sobre a empresa ou tópico central para prospecção comercial.\n\nPontos-chave a serem abordados no resumo:\n-   Desafios Atuais: Obstáculos, problemas de mercado ou dores que a empresa enfrenta.\n-   Oportunidades de Mercado: Onde a empresa pode crescer ou inovar?\n-   Iniciativas Estratégicas: Projetos, parcerias, aquisições ou lançamentos recentes.\n-   Pontos de Dor Relevantes: Problemas específicos que nossos produtos/serviços podem resolver.\n-   Proposições de Valor: Como nossos produtos/serviços se alinham aos objetivos da empresa e que ganhos oferecemos.\n\nDiretrizes:\n-   Priorize as informações mais recentes e as mais impactantes para vendas.\n-   " ++ "Mencione explicitamente se houver informações conflitantes ou falta de dados." ++ "\n-   Apresente o resumo de forma estruturada, usando títulos e marcadores.\n-   Mantenha um tom profissional e analítico.\n\n---\nLinks para análise (priorize a leitura e compreensão do conteúdo):\n" := by rfl

/-- C9: For every non-empty list of links, the prompt that
`resumir_com_gemini` passes to `generate_content_with_retry_rest` is the
fixed template with the URLs joined by the newline-dash separator
interpolated into it; the prompt contains the five fixed theme headers
and the instruction to flag conflicting or missing information; and when
the call returns successfully its value is returned unmodified (with
exactly one completion call made). -/
theorem c9_prompt_structure_and_passthrough (links : List String)
    (transport : JVal → Nat → Except Exc HttpResponse) (h : links ≠ []) :
    resumir_prompt links =
      prompt_head ++ String.intercalate "\n- " links ++ prompt_tail ∧
    (∃ x y, resumir_prompt links = x ++ "Desafios Atuais" ++ y) ∧
    (∃ x y, resumir_prompt links = x ++ "Oportunidades de Mercado" ++ y) ∧
    (∃ x y, resumir_prompt links = x ++ "Iniciativas Estratégicas" ++ y) ∧
    (∃ x y, resumir_prompt links = x ++ "Pontos de Dor Relevantes" ++ y) ∧
    (∃ x y, resumir_prompt links = x ++ "Proposições de Valor" ++ y) ∧
    (∃ x y, resumir_prompt links =
      x ++ "Mencione explicitamente se houver informações conflitantes ou falta de dados." ++ y) ∧
    (∀ v, (generate_content_with_retry_rest (resumir_prompt links) transport).outcome =
        Except.ok v →
      resumir_com_gemini links transport = (v, 1)) := by
  refine ⟨rfl,
    head_split_contains _ _ _ prompt_head_split_1 links,
    head_split_contains _ _ _ prompt_head_split_2 links,
    head_split_contains _ _ _ prompt_head_split_3 links,
    head_split_contains _ _ _ prompt_head_split_4 links,
    head_split_contains _ _ _ prompt_head_split_5 links,
    head_split_contains _ _ _ prompt_head_split_6 links, ?_⟩
  intro v hv
  cases links with
  | nil => exact absurd rfl h
  | cons a as => simp [resumir_com_gemini, hv]

/-- C9 witness: with one link and a transport whose completion succeeds
with text "R", the summary is exactly "R" after one completion call. -/
theorem c9_prompt_structure_and_passthrough_witness :
    resumir_com_gemini ["https://a"] transport_ok = (JVal.str "R", 1) :=
  (c9_prompt_structure_and_passthrough ["https://a"] transport_ok
    (by simp)).2.2.2.2.2.2.2 (JVal.str "R") rfl

/-- C10 (amended): When the parsed completion body has a non-empty
candidates list whose first candidate lacks the expected
content/parts/text structure, the attempt raises a lookup error
(`KeyError` for a missing "content", "parts" or "text" key, `IndexError`
for an empty parts list) when a key or index along the path is absent,
and a `TypeError` when an intermediate value has the wrong type; in
either case the exception is not an HTTP error, so no retry occurs and
the sentinel is not returned, and `resumir_com_gemini` converts the
exception into the generic unknown-error message naming the exception
type. -/
theorem c10_amended_structure_failures (prompt_text : String)
    (response : HttpResponse) (fields c0fields : List (String × JVal))
    (rest : List JVal)
    (hs : response.status_code < 400)
    (hj : response.json = some (JVal.obj fields))
    (hc : jlookup fields "candidates" = some (JVal.arr (JVal.obj c0fields :: rest))) :
    (jlookup c0fields "content" = none →
      gemini_attempt prompt_text (fun _ _ => Except.ok response) 1 =
        Except.error (Exc.keyError "content") ∧
      Exc.isLookupError (Exc.keyError "content") = true ∧
      Exc.isHTTPError (Exc.keyError "content") = false) ∧
    (∀ cfields, jlookup c0fields "content" = some (JVal.obj cfields) →
      jlookup cfields "parts" = none →
      gemini_attempt prompt_text (fun _ _ => Except.ok response) 1 =
        Except.error (Exc.keyError "parts") ∧
      Exc.isLookupError (Exc.keyError "parts") = true ∧
      Exc.isHTTPError (Exc.keyError "parts") = false) ∧
    (∀ cfields, jlookup c0fields "content" = some (JVal.obj cfields) →
      jlookup cfields "parts" = some (JVal.arr []) →
      gemini_attempt prompt_text (fun _ _ => Except.ok response) 1 =
        Except.error (Exc.indexError "list index out of range") ∧
      Exc.isLookupError (Exc.indexError "list index out of range") = true ∧
      Exc.isHTTPError (Exc.indexError "list index out of range") = false) ∧
    (∀ cfields p0fields prest,
      jlookup c0fields "content" = some (JVal.obj cfields) →
      jlookup cfields "parts" = some (JVal.arr (JVal.obj p0fields :: prest)) →
      jlookup p0fields "text" = none →
      gemini_attempt prompt_text (fun _ _ => Except.ok response) 1 =
        Except.error (Exc.keyError "text") ∧
      Exc.isLookupError (Exc.keyError "text") = true ∧
      Exc.isHTTPError (Exc.keyError "text") = false) ∧
    (∀ v, jlookup c0fields "content" = some v →
      (∀ cfields, v ≠ JVal.obj cfields) →
      ∃ m, gemini_attempt prompt_text (fun _ _ => Except.ok response) 1 =
          Except.error (Exc.typeError m) ∧
        Exc.isLookupError (Exc.typeError m) = false ∧
        Exc.isHTTPError (Exc.typeError m) = false) ∧
    (∀ e, gemini_attempt prompt_text (fun _ _ => Except.ok response) 1 =
        Except.error e →
      Exc.isHTTPError e = false →
      generate_content_with_retry_rest prompt_text (fun _ _ => Except.ok response) =
        ⟨Except.error e, 1, []⟩ ∧
      (∀ links, links ≠ [] →
        resumir_com_gemini links (fun _ _ => Except.ok response) =
          (JVal.str (unknown_msg e.name e.pystr), 1))) := by
  have h429 : (response.status_code == 429) = false := by
    simp only [beq_eq_false_iff_ne, ne_eq]
    omega
  have hpath : ∀ res, gemini_extract (JVal.obj fields) = res →
      gemini_attempt prompt_text (fun _ _ => Except.ok response) 1 = res := by
    intro res he
    simp only [gemini_attempt, raise_for_status_of_lt response hs,
      gemini_after_status, h429, Bool.false_eq_true, if_false, hj,
      gemini_parse, py_contains, hc, Option.isSome_some, if_true, py_getitem,
      JVal.truthy, List.isEmpty_cons, Bool.not_false, he]
  refine ⟨?_, ?_, ?_, ?_, ?_, ?_⟩
  · intro hmiss
    refine ⟨hpath _ ?_, rfl, rfl⟩
    simp [gemini_extract, py_getitem, py_index, hc, hmiss, Bind.bind, Except.bind]
  · intro cfields hcont hparts
    refine ⟨hpath _ ?_, rfl, rfl⟩
    simp [gemini_extract, py_getitem, py_index, hc, hcont, hparts,
      Bind.bind, Except.bind]
  · intro cfields hcont hparts
    refine ⟨hpath _ ?_, rfl, rfl⟩
    simp [gemini_extract, py_getitem, py_index, hc, hcont, hparts,
      Bind.bind, Except.bind]
  · intro cfields p0fields prest hcont hparts htext
    refine ⟨hpath _ ?_, rfl, rfl⟩
    simp [gemini_extract, py_getitem, py_index, hc, hcont, hparts, htext,
      Bind.bind, Except.bind]
  · intro v hcont hno
    cases v with
    | obj cfields => exact absurd rfl (hno cfields)
    | null =>
      refine ⟨"\x27NoneType\x27 object is not subscriptable", hpath _ ?_, rfl, rfl⟩
      simp [gemini_extract, py_getitem, py_index, hc, hcont,
        Bind.bind, Except.bind, JVal.py_type_name]
    | bool b =>
      refine ⟨"\x27bool\x27 object is not subscriptable", hpath _ ?_, rfl, rfl⟩
      simp [gemini_extract, py_getitem, py_index, hc, hcont,
        Bind.bind, Except.bind, JVal.py_type_name]
    | num n =>
      refine ⟨"\x27int\x27 object is not subscriptable", hpath _ ?_, rfl, rfl⟩
      simp [gemini_extract, py_getitem, py_index, hc, hcont,
        Bind.bind, Except.bind, JVal.py_type_name]
    | str s2 =>
      refine ⟨"string indices must be integers", hpath _ ?_, rfl, rfl⟩
      simp [gemini_extract, py_getitem, py_index, hc, hcont,
        Bind.bind, Except.bind]
    | arr xs =>
      refine ⟨"list indices must be integers or slices, not str", hpath _ ?_, rfl, rfl⟩
      simp [gemini_extract, py_getitem, py_index, hc, hcont,
        Bind.bind, Except.bind]
  · intro e hatt hnh
    have hgen : ∀ p, generate_content_with_retry_rest p
        (fun _ _ => Except.ok response) = ⟨Except.error e, 1, []⟩ := by
      intro p
      simp only [generate_content_with_retry_rest, tenacity_retry]
      exact tenacity_go_noretry _ _ _ 1 4 _ hatt hnh
    refine ⟨hgen prompt_text, ?_⟩
    intro links hne
    cases links with
    | nil => exact absurd rfl hne
    | cons a as =>
      cases e with
      | httpError status msg => exact absurd hnh (by simp [Exc.isHTTPError])
      | keyError key => simp [resumir_com_gemini, hgen, Exc.name, Exc.pystr]
      | indexError msg => simp [resumir_com_gemini, hgen, Exc.name, Exc.pystr]
      | typeError msg => simp [resumir_com_gemini, hgen, Exc.name, Exc.pystr]
      | jsonDecodeError msg => simp [resumir_com_gemini, hgen, Exc.name, Exc.pystr]
      | connectionError msg => simp [resumir_com_gemini, hgen, Exc.name, Exc.pystr]
      | retryError last => simp [resumir_com_gemini, hgen, Exc.name, Exc.pystr]

/-- C10 witness: the missing-"content" candidate and the wrong-typed
(`"content": 5`) candidate realize the theorem, including the absence of
retries and the orchestrator-level generic messages naming `KeyError` and
`TypeError` respectively. -/
theorem c10_amended_structure_failures_witness :
    generate_content_with_retry_rest "p"
      (fun _ _ => Except.ok (⟨200, "OK", "u",
        some (JVal.obj [("candidates", JVal.arr [JVal.obj []])])⟩ : HttpResponse)) =
      ⟨Except.error (Exc.keyError "content"), 1, []⟩ ∧
    resumir_com_gemini ["https://a"]
      (fun _ _ => Except.ok (⟨200, "OK", "u",
        some (JVal.obj [("candidates", JVal.arr [JVal.obj []])])⟩ : HttpResponse)) =
      (JVal.str (unknown_msg "KeyError" (Exc.pystr (Exc.keyError "content"))), 1) ∧
    generate_content_with_retry_rest "p" transport_badcand =
      ⟨Except.error (Exc.typeError "\x27int\x27 object is not subscriptable"), 1, []⟩ ∧
    resumir_com_gemini ["https://a"] transport_badcand =
      (JVal.str (unknown_msg "TypeError"
        "\x27int\x27 object is not subscriptable"), 1) := by
  have t1 := c10_amended_structure_failures "p"
    ⟨200, "OK", "u", some (JVal.obj [("candidates", JVal.arr [JVal.obj []])])⟩
    [("candidates", JVal.arr [JVal.obj []])] [] [] (by decide) rfl rfl
  have t2 := c10_amended_structure_failures "p" resp_badcand
    [("candidates", JVal.arr [JVal.obj [("content", JVal.num 5)]])]
    [("content", JVal.num 5)] [] (by decide) rfl rfl
  have g1 := t1.2.2.2.2.2 (Exc.keyError "content") (t1.1 rfl).1 rfl
  have g2 := t2.2.2.2.2.2
    (Exc.typeError "\x27int\x27 object is not subscriptable") rfl rfl
  exact ⟨g1.1, g1.2 ["https://a"] (by simp), g2.1, g2.2 ["https://a"] (by simp)⟩
